import Mathlib

/-!
# Verification of the MySQL clone-recovery orchestrator

Shallow embedding of `src/mysql-clone-tool.py` (class `MySQLCloneRecovery` and
its `main` driver).  Python values returned by the database are modelled as
plain records; the effectful loops (`_monitor_clone_progress`, the reconnect
retry loop, and `main`'s pre-flight check sequence) become explicit state
passing over lists of externally supplied responses.  Printed diagnostics are
accumulated in the state so that reporting behaviour can be stated.
-/

set_option autoImplicit false

namespace CloneTool

/-! ## Data model: rows returned by the two status surfaces -/

/-- One row of `performance_schema.clone_progress`: per-task estimated and
completed work units (`WORK_ESTIMATED`, `WORK_COMPLETED` columns, read with
`task.get(..., 0)` so a missing column defaults to 0). -/
structure ProgressRow where
  workEstimated : Nat
  workCompleted : Nat
deriving DecidableEq, Repr

/-- The single row of `performance_schema.clone_status`: overall state name,
error code and error message (`STATE`, `ERROR_NO`, `ERROR_MESSAGE`). -/
structure StatusRow where
  state : String
  errorNo : Nat
  errorMessage : String
deriving DecidableEq, Repr

/-- The external responses consumed by one iteration of the monitor loop:
the rows returned by the `clone_progress` query, and the row (if any) that
the `clone_status` query would return this cycle.  At most one of the two
`clone_status` queries in the loop body runs per cycle (the empty-rows branch
ends in `continue`), so a single response per cycle is faithful. -/
structure PollCycle where
  progressData : List ProgressRow
  status : Option StatusRow
deriving DecidableEq, Repr

/-- Failure diagnostics the monitor loop can print, tagged with their
payload.  `noProgress` is the message
"Clone operation failed or no progress data available" from the empty-rows
branch; `cloneFailed msg` is "Clone operation failed: msg" from the
explicit-Failed branch. -/
inductive FailMsg where
  | noProgress : FailMsg
  | cloneFailed (errMsg : String) : FailMsg
deriving DecidableEq, Repr

/-- Mutable state of the monitor loop in `_monitor_clone_progress`:
the tqdm counter `pbar.n` (every update in this loop is
`pbar.update(x - pbar.n)`, i.e. an assignment of `x` to `pbar.n`, and tqdm's
`update` accepts negative increments), the `completed` flag, the shared
`error_reported` flag, and the failure diagnostics printed so far. -/
structure MonitorState where
  pbarN : Nat
  completed : Bool
  errorReported : Bool
  printed : List FailMsg
deriving DecidableEq, Repr

/-- State at entry of the `while not completed` loop: `pbar = tqdm(total=100)`
starts at 0, `completed = False`, `error_reported = False`. -/
def initMonitorState : MonitorState :=
  { pbarN := 0, completed := false, errorReported := false, printed := [] }

/-- Sum of `WORK_ESTIMATED` over the progress rows (`total_work`). -/
def totalWork (rows : List ProgressRow) : Nat :=
  rows.foldl (fun acc task => acc + task.workEstimated) 0

/-- Sum of `WORK_COMPLETED` over the progress rows (`completed_work`). -/
def completedWork (rows : List ProgressRow) : Nat :=
  rows.foldl (fun acc task => acc + task.workCompleted) 0

/-- One iteration of the `while not completed` loop body of
`_monitor_clone_progress`, lines 217-256 of `mysql-clone-tool.py`.

* Empty `clone_progress` result: query `clone_status`; a row with
  `ERROR_NO == 0` sets the bar to 100 and `completed = True`; otherwise, if
  `error_reported` is still false, print the no-progress diagnostic once and
  set the flag; then `continue`.
* Non-empty result: if `total_work > 0`, assign
  `min(int(completed_work / total_work * 100), 100)` to `pbar.n`
  (float truncation of a nonnegative ratio is floor, i.e. Nat division);
  then query `clone_status`: `STATE == 'Completed'` sets the bar to 100 and
  `completed = True`; `STATE == 'Failed' and not error_reported` prints the
  error message and sets the flag. -/
def monitorStep (s : MonitorState) (c : PollCycle) : MonitorState :=
  if c.progressData.isEmpty then
    match c.status with
    | some st =>
        if st.errorNo = 0 then
          { s with pbarN := 100, completed := true }
        else if !s.errorReported then
          { s with errorReported := true, printed := s.printed ++ [FailMsg.noProgress] }
        else s
    | none =>
        if !s.errorReported then
          { s with errorReported := true, printed := s.printed ++ [FailMsg.noProgress] }
        else s
  else
    let s1 :=
      if totalWork c.progressData > 0 then
        { s with pbarN := min (completedWork c.progressData * 100 / totalWork c.progressData) 100 }
      else s
    match c.status with
    | some st =>
        if st.state = "Completed" then
          { s1 with pbarN := 100, completed := true }
        else if st.state = "Failed" && !s1.errorReported then
          { s1 with errorReported := true,
                    printed := s1.printed ++ [FailMsg.cloneFailed st.errorMessage] }
        else s1
    | none => s1

/-- The `while not completed` loop run over a finite prefix of the stream of
poll responses: each cycle is consumed only while `completed` is false, as
the loop guard is checked before each iteration. -/
def monitorRun (s : MonitorState) : List PollCycle → MonitorState
  | [] => s
  | c :: cs => if s.completed then s else monitorRun (monitorStep s c) cs

/-! ## Reconnect retry loop and `_monitor_clone_progress` as a whole -/

/-- The `while retries < max_retries` reconnect loop of
`_monitor_clone_progress` (lines 191-203): `attempts.getD retries false`
tells whether the `pymysql.connect` attempt made when the counter equals
`retries` succeeds; a success breaks out with a connection, a failure
increments `retries`.  Recursion is on the remaining budget
`max_retries - retries`. -/
def reconnectFrom (attempts : List Bool) (retries : Nat) : Nat → Bool
  | 0 => false
  | rem + 1 =>
      if attempts.getD retries false then true
      else reconnectFrom attempts (retries + 1) rem

/-- Whether the reconnect loop obtains a connection within `maxRetries`
attempts (starting from `retries = 0`). -/
def reconnectOk (attempts : List Bool) (maxRetries : Nat) : Bool :=
  reconnectFrom attempts 0 maxRetries

/-- `max_retries = 30` in `_monitor_clone_progress`. -/
def maxRetries : Nat := 30

/-- External responses consumed by `_monitor_clone_progress`: the outcome of
each reconnection attempt, then the per-cycle poll responses. -/
structure MonitorEnv where
  reconnectAttempts : List Bool
  cycles : List PollCycle
deriving Repr

/-- Observable outcome of `_monitor_clone_progress`: whether the reconnect
loop succeeded, whether the
"Could not reconnect to target database after clone started" diagnostic was
printed, and the monitor-loop state on return (the loop is entered only after
a successful reconnect; on reconnect failure the function returns at once). -/
structure MonitorResult where
  reconnected : Bool
  reconnectFailPrinted : Bool
  final : MonitorState
deriving Repr

/-- `_monitor_clone_progress` (lines 178-266): wait, reconnect with a budget
of `max_retries = 30`, and if a connection was obtained run the progress
loop; otherwise print the could-not-reconnect diagnostic and return.  The
function never raises: its body is wrapped in a catch-all handler. -/
def monitor_clone_progress (env : MonitorEnv) : MonitorResult :=
  if reconnectOk env.reconnectAttempts maxRetries then
    { reconnected := true
      reconnectFailPrinted := false
      final := monitorRun initMonitorState env.cycles }
  else
    { reconnected := false
      reconnectFailPrinted := true
      final := initMonitorState }

/-! ## Clone dispatch (`execute_clone`) -/

/-- Error classes that a statement issued through pymysql can raise.
`operational` is `pymysql.err.OperationalError` (a subclass of
`pymysql.MySQLError`) carrying `str(e)`; `mysqlOther` is any other
`pymysql.MySQLError`; `nonMysql` is an exception outside the pymysql
hierarchy, which no handler in `execute_clone` catches. -/
inductive DbError where
  | operational (msg : String) : DbError
  | mysqlOther (msg : String) : DbError
  | nonMysql (msg : String) : DbError
deriving DecidableEq, Repr

/-- Whether `pat` occurs at the start of `cs`. -/
def listStartsWith : List Char → List Char → Bool
  | [], _ => true
  | _ :: _, [] => false
  | p :: ps, c :: cs => p == c && listStartsWith ps cs

/-- Whether `pat` occurs as a contiguous run anywhere in the list. -/
def listHasSub (pat : List Char) : List Char → Bool
  | [] => pat.isEmpty
  | c :: rest => listStartsWith pat (c :: rest) || listHasSub pat rest

/-- The `"Lost connection" in str(e)` substring test of line 160, as a scan
over the message's characters. -/
def containsLostConnection (msg : String) : Bool :=
  listHasSub "Lost connection".toList msg.toList

/-- The classification implemented at lines 159-163: only an
`OperationalError` whose message contains "Lost connection" is absorbed. -/
def isLostConnErr : DbError → Bool
  | .operational msg => containsLostConnection msg
  | .mysqlOther _ => false
  | .nonMysql _ => false

/-- Whether the outer `except pymysql.MySQLError` handler of `execute_clone`
(line 174) catches the error. -/
def caughtByOuter : DbError → Bool
  | .operational _ => true
  | .mysqlOther _ => true
  | .nonMysql _ => false

/-- External outcomes consumed by `execute_clone`: whether the datadir query
and the donor-list statement raise (none = success), whether
`ssh_connect(target_host)` returns True, what `cursor.execute(clone_stmt)`
raises (none = returns normally), and the monitor's environment. -/
structure ExecEnv where
  datadirErr : Option DbError
  donorErr : Option DbError
  sshOk : Bool
  dispatchErr : Option DbError
  mon : MonitorEnv
deriving Repr

/-- Observable outcome of a non-raising return from `execute_clone`:
which steps ran and the boolean return value. -/
structure ExecResult where
  donorSet : Bool
  cloneIssued : Bool
  monitorInvoked : Bool
  monResult : Option MonitorResult
  retval : Bool
deriving Repr

/-- `execute_clone` (lines 126-176).  Steps in order: datadir query,
donor-list statement, `ssh_connect` to the target (its failure returns False
without issuing the clone, line 170-172), then `cursor.execute(clone_stmt)`
under the inner `except OperationalError` handler that absorbs only
lost-connection errors and re-raises the rest, then
`_monitor_clone_progress` and `return True`.  A raised `pymysql.MySQLError`
is caught by the outer handler, printing a diagnostic and returning False;
any other exception propagates to the caller (`Except.error`). -/
def execute_clone (env : ExecEnv) : Except String ExecResult :=
  match env.datadirErr with
  | some e =>
      if caughtByOuter e then
        .ok { donorSet := false, cloneIssued := false, monitorInvoked := false
              monResult := none, retval := false }
      else .error "datadir"
  | none =>
  match env.donorErr with
  | some e =>
      if caughtByOuter e then
        .ok { donorSet := false, cloneIssued := false, monitorInvoked := false
              monResult := none, retval := false }
      else .error "donor"
  | none =>
  if !env.sshOk then
    .ok { donorSet := true, cloneIssued := false, monitorInvoked := false
          monResult := none, retval := false }
  else
    match env.dispatchErr with
    | none =>
        .ok { donorSet := true, cloneIssued := true, monitorInvoked := true
              monResult := some (monitor_clone_progress env.mon), retval := true }
    | some e =>
        if isLostConnErr e then
          .ok { donorSet := true, cloneIssued := true, monitorInvoked := true
                monResult := some (monitor_clone_progress env.mon), retval := true }
        else if caughtByOuter e then
          .ok { donorSet := true, cloneIssued := true, monitorInvoked := false
                monResult := none, retval := false }
        else .error "dispatch"

/-! ## Result validation (`validate_clone`) -/

/-- External responses consumed by `validate_clone`: whether the fresh
connection to the target succeeds, the `clone_status` row, and the
version/server-id row. -/
structure ValidateEnv where
  connectOk : Bool
  status : Option StatusRow
  version : String
  serverId : Nat
deriving Repr

/-- Observable outcome of `validate_clone`: the boolean return value, the
failure message printed (payload of
"Clone validation failed: ..."), and the server information reported on
success. -/
structure ValidateResult where
  ok : Bool
  failMessage : Option String
  serverInfoReported : Option (String × Nat)
deriving DecidableEq, Repr

/-- `validate_clone` (lines 268-306): connect afresh (a `pymysql.MySQLError`
is caught and returns False), read `clone_status`; success requires a row
with `STATE == 'Completed'` and `ERROR_NO == 0`, in which case version and
server id are reported; otherwise print
"Clone validation failed: " with the row's `ERROR_MESSAGE`, or
"Unknown error" when no row came back. -/
def validate_clone (env : ValidateEnv) : ValidateResult :=
  if !env.connectOk then
    { ok := false, failMessage := none, serverInfoReported := none }
  else
    match env.status with
    | some st =>
        if st.state = "Completed" && st.errorNo = 0 then
          { ok := true, failMessage := none
            serverInfoReported := some (env.version, env.serverId) }
        else
          { ok := false, failMessage := some st.errorMessage
            serverInfoReported := none }
    | none =>
        { ok := false, failMessage := some "Unknown error"
          serverInfoReported := none }

/-! ## Pre-flight checks in `main` -/

/-- Identifiers for the five pre-flight checks `main` performs, in source
order (lines 341-362). -/
inductive Check where
  | srcConnect | tgtConnect | srcPlugin | tgtPlugin | activeSessions
deriving DecidableEq, Repr

/-- `check_plugin_status` (lines 77-92) as a function of the single
`INFORMATION_SCHEMA.PLUGINS` row: `none` means no row (plugin not
installed); otherwise the argument is the `PLUGIN_STATUS` value, and the
check passes only for "ACTIVE". -/
def check_plugin_status (pluginRow : Option String) : Bool :=
  match pluginRow with
  | none => false
  | some st => st = "ACTIVE"

/-- A row of `INFORMATION_SCHEMA.PROCESSLIST` as used by
`check_active_connections` (the SQL WHERE clause has already filtered out
Daemon/Sleep commands, the tool's own user and its own connection id). -/
structure SessionRow where
  id : Nat
  user : String
  host : String
  command : String
deriving DecidableEq, Repr

/-- `check_active_connections` (lines 94-112): passes exactly when the
filtered process list is empty; otherwise each offending session is listed
and the check fails. -/
def check_active_connections (rows : List SessionRow) : Bool :=
  rows.isEmpty

/-- External outcomes consumed by `main`'s pre-flight phase: connect
results, plugin rows on both endpoints, the filtered process list on the
target, and the `--force` flag. -/
structure PreflightEnv where
  sourceConnectOk : Bool
  targetConnectOk : Bool
  sourcePluginRow : Option String
  targetPluginRow : Option String
  activeRows : List SessionRow
  force : Bool
deriving Repr

/-- Observable outcome of the pre-flight phase: which checks actually ran
(in order), the abort reason printed by the failing check's branch (if any),
and whether control reaches the clone dispatch. -/
structure PreflightOutcome where
  checksRun : List Check
  abortReason : Option String
  proceed : Bool
deriving DecidableEq, Repr

/-- The pre-flight sequence of `main` (lines 338-362): five guarded
`sys.exit(1)` statements in a row, so each check runs only if every earlier
one passed, and the active-session failure is overridden by `--force`
(`if not recovery.check_active_connections() and not args.force`). -/
def mainPreflight (env : PreflightEnv) : PreflightOutcome :=
  if !env.sourceConnectOk then
    { checksRun := [.srcConnect]
      abortReason := some "Cannot connect to source database", proceed := false }
  else if !env.targetConnectOk then
    { checksRun := [.srcConnect, .tgtConnect]
      abortReason := some "Cannot connect to target database", proceed := false }
  else if !check_plugin_status env.sourcePluginRow then
    { checksRun := [.srcConnect, .tgtConnect, .srcPlugin]
      abortReason := some "Clone plugin issue on source database", proceed := false }
  else if !check_plugin_status env.targetPluginRow then
    { checksRun := [.srcConnect, .tgtConnect, .srcPlugin, .tgtPlugin]
      abortReason := some "Clone plugin issue on target database", proceed := false }
  else if !check_active_connections env.activeRows && !env.force then
    { checksRun := [.srcConnect, .tgtConnect, .srcPlugin, .tgtPlugin, .activeSessions]
      abortReason := some "Active connections found on target database", proceed := false }
  else
    { checksRun := [.srcConnect, .tgtConnect, .srcPlugin, .tgtPlugin, .activeSessions]
      abortReason := none, proceed := true }

/-! ## The whole run (`main` after pre-flight) -/

/-- External outcomes consumed by one whole invocation of `main`. -/
structure MainEnv where
  pre : PreflightEnv
  exec : ExecEnv
  val : ValidateEnv
deriving Repr

/-- `main` (lines 317-379) reduced to its process exit code: pre-flight
failure exits 1; `execute_clone` returning False prints
"Clone operation failed" and exits 1; an exception propagating out of
`execute_clone` is caught by the top-level handler and exits 1; when
`execute_clone` returns True, `validate_clone` is called but its result is
not inspected, and `main` falls through to exit code 0. -/
def mainRun (env : MainEnv) : Nat :=
  if !(mainPreflight env.pre).proceed then 1
  else
    match execute_clone env.exec with
    | .error _ => 1
    | .ok r => if r.retval then 0 else 1

/-! ## Derived observations used by the theorems -/

/-- Whether `_monitor_clone_progress` is reached for a given outcome of
`execute_clone` (an uncaught exception never reaches it). -/
def execMonitorInvoked : Except String ExecResult → Bool
  | .ok r => r.monitorInvoked
  | .error _ => false

/-- Whether a given outcome of `execute_clone` is fatal for `main`: either
the boolean return value is False (main prints "Clone operation failed" and
exits 1) or an exception propagated (main's top-level handler exits 1). -/
def execFatal : Except String ExecResult → Bool
  | .ok r => !r.retval
  | .error _ => true

/-- Relation between the `error_reported` flag and the printed diagnostics
that the monitor loop maintains: exactly one failure diagnostic has been
printed when the flag is set, none otherwise. -/
def flagMatchesPrinted (s : MonitorState) : Prop :=
  s.printed.length = (if s.errorReported then 1 else 0)

/-! ## Concrete runs used as counterexamples and witnesses -/

/-- A `clone_status` row with STATE 'Failed' and a nonzero error code. -/
def failedStatusRow : StatusRow :=
  { state := "Failed", errorNo := 1, errorMessage := "clone donor error" }

/-- A poll cycle with progress rows present and an explicit Failed status. -/
def failedCycle : PollCycle :=
  { progressData := [⟨100, 50⟩], status := some failedStatusRow }

/-- A mid-clone poll cycle whose rows put the derived percentage at 50. -/
def halfCycle : PollCycle :=
  { progressData := [⟨100, 50⟩], status := some ⟨"In Progress", 0, ""⟩ }

/-- A later poll cycle whose rows put the derived percentage at 25. -/
def quarterCycle : PollCycle :=
  { progressData := [⟨100, 25⟩], status := some ⟨"In Progress", 0, ""⟩ }

/-- An ambiguous cycle: no progress rows, status present with ERROR_NO 0. -/
def emptyOkCycle : PollCycle :=
  { progressData := [], status := some ⟨"Completed", 0, ""⟩ }

/-- An ambiguous cycle: no progress rows, status present with ERROR_NO 7. -/
def emptyBadCycle : PollCycle :=
  { progressData := [], status := some ⟨"Failed", 7, "boom"⟩ }

/-- The pymysql message raised when the clone directive severs the control
connection (error 2013). -/
def lostConnMsg : String := "2013 Lost connection to MySQL server during query"

/-- A monitor environment whose first reconnection attempt succeeds and
whose poll stream is empty. -/
def quietMonitorEnv : MonitorEnv := { reconnectAttempts := [true], cycles := [] }

/-- `execute_clone` inputs where only the SSH connection fails. -/
def sshFailEnv : ExecEnv :=
  { datadirErr := none, donorErr := none, sshOk := false, dispatchErr := none
    mon := quietMonitorEnv }

/-- `execute_clone` inputs where the dispatch raises the expected
lost-connection `OperationalError`. -/
def lostConnEnv : ExecEnv :=
  { datadirErr := none, donorErr := none, sshOk := true
    dispatchErr := some (DbError.operational lostConnMsg), mon := quietMonitorEnv }

/-- `execute_clone` inputs where the dispatch raises a non-connection
MySQL error (e.g. permission denied). -/
def deniedEnv : ExecEnv :=
  { datadirErr := none, donorErr := none, sshOk := true
    dispatchErr := some (DbError.mysqlOther "1227 access denied"), mon := quietMonitorEnv }

/-- `execute_clone` inputs where the dispatch is absorbed as a
lost-connection error but every reconnection attempt then fails. -/
def reconnectFailExecEnv : ExecEnv :=
  { datadirErr := none, donorErr := none, sshOk := true
    dispatchErr := some (DbError.operational lostConnMsg)
    mon := { reconnectAttempts := [], cycles := [] } }

/-- Pre-flight inputs where every check passes. -/
def healthyPreEnv : PreflightEnv :=
  { sourceConnectOk := true, targetConnectOk := true
    sourcePluginRow := some "ACTIVE", targetPluginRow := some "ACTIVE"
    activeRows := [], force := false }

/-- A blocking session on the target. -/
def blockingSession : SessionRow :=
  { id := 7, user := "app", host := "10.0.0.5", command := "Query" }

/-- Pre-flight inputs with a blocking session but `--force` supplied. -/
def busyForcedPreEnv : PreflightEnv :=
  { healthyPreEnv with activeRows := [blockingSession], force := true }

/-- Pre-flight inputs where every single check would fail. -/
def multiFailPreEnv : PreflightEnv :=
  { sourceConnectOk := false, targetConnectOk := false
    sourcePluginRow := none, targetPluginRow := none
    activeRows := [blockingSession], force := false }

/-- A whole-run environment: healthy pre-flight, expected disconnect on
dispatch, and a target that never comes back online. -/
def reconnectFailMainEnv : MainEnv :=
  { pre := healthyPreEnv, exec := reconnectFailExecEnv
    val := { connectOk := false, status := none, version := "8.0.33", serverId := 2 } }

/-- A healthy `validate_clone` environment: fresh connection succeeds and
the status row reports Completed with error code 0. -/
def okValidateEnv : ValidateEnv :=
  { connectOk := true, status := some ⟨"Completed", 0, ""⟩
    version := "8.0.33", serverId := 2 }

/-! ## Helper lemmas -/

/-- One loop iteration preserves the flag/printed relation: every branch
that appends a diagnostic also checks and sets `error_reported`. -/
lemma monitorStep_flag {s : MonitorState} (c : PollCycle)
    (h : flagMatchesPrinted s) : flagMatchesPrinted (monitorStep s c) := by
  unfold flagMatchesPrinted at h ⊢
  unfold monitorStep
  rcases hstat : c.status with _ | st <;>
    by_cases hemp : c.progressData.isEmpty <;>
      simp only [hemp, hstat, if_true, if_false, Bool.false_eq_true] <;>
        split_ifs <;> simp_all

/-- The flag/printed relation is preserved by any finite run. -/
lemma monitorRun_flag {s : MonitorState} (cycles : List PollCycle)
    (h : flagMatchesPrinted s) : flagMatchesPrinted (monitorRun s cycles) := by
  induction cycles generalizing s with
  | nil => exact h
  | cons c cs ih =>
      unfold monitorRun
      split
      · exact h
      · exact ih (monitorStep_flag c h)

/-- Any run from the loop's initial state prints at most one failure
diagnostic in total. -/
lemma printed_length_le_one (cycles : List PollCycle) :
    (monitorRun initMonitorState cycles).printed.length ≤ 1 := by
  have h : flagMatchesPrinted (monitorRun initMonitorState cycles) :=
    monitorRun_flag cycles (by simp [flagMatchesPrinted, initMonitorState])
  unfold flagMatchesPrinted at h
  rw [h]
  by_cases hb : (monitorRun initMonitorState cycles).errorReported <;> simp [hb]

/-- A list of length at most one cannot contain two different elements. -/
lemma not_mem_of_length_le_one {l : List FailMsg} (h : l.length ≤ 1)
    {a b : FailMsg} (ha : a ∈ l) (hne : b ≠ a) : b ∉ l := by
  intro hb
  match l with
  | [] => cases ha
  | [x] =>
      rw [List.mem_singleton] at ha hb
      exact hne (hb.trans ha.symm)
  | x :: y :: rest => simp at h

/-! ## Claim C1 -/

/-- C1 counterexample: a poll cycle whose `clone_status` row has
STATE 'Failed' does not end the monitor loop — `completed` is still false
after the cycle (and after three such cycles), even though the error message
was printed.  The loop guard `while not completed` therefore keeps polling;
there is no Failed outcome. -/
theorem c1_counterexample :
    (monitorRun initMonitorState [failedCycle]).completed = false ∧
    (monitorRun initMonitorState [failedCycle, failedCycle, failedCycle]).completed = false ∧
    (monitorRun initMonitorState [failedCycle]).printed =
      [FailMsg.cloneFailed "clone donor error"] := by
  refine ⟨by decide, by decide, by decide⟩

/-- C1 (amended): on a poll cycle whose terminal-status row reports
STATE 'Failed', the loop body leaves `completed` unchanged — monitoring
does not terminate on Failed — and prints the row's error message exactly
when no failure diagnostic has been printed before (the shared
`error_reported` flag suppresses it afterwards). -/
theorem c1_failed_state_behavior (s : MonitorState) (c : PollCycle)
    (st : StatusRow) (hne : c.progressData ≠ [])
    (hst : c.status = some st) (hfail : st.state = "Failed") :
    (monitorStep s c).completed = s.completed ∧
    (s.errorReported = false →
      (monitorStep s c).printed = s.printed ++ [FailMsg.cloneFailed st.errorMessage] ∧
      (monitorStep s c).errorReported = true) ∧
    (s.errorReported = true → (monitorStep s c).printed = s.printed) := by
  have hemp : c.progressData.isEmpty = false := by
    simp [List.isEmpty_iff, hne]
  by_cases hrep : s.errorReported = true <;>
    by_cases hw : totalWork c.progressData > 0 <;>
      simp [monitorStep, hemp, hst, hfail, hrep, hw]

/-- Witness for C1 (amended) at the initial state and a concrete Failed
cycle. -/
theorem c1_failed_state_behavior_witness :
    (monitorStep initMonitorState failedCycle).completed =
      initMonitorState.completed ∧
    (initMonitorState.errorReported = false →
      (monitorStep initMonitorState failedCycle).printed =
        initMonitorState.printed ++ [FailMsg.cloneFailed failedStatusRow.errorMessage] ∧
      (monitorStep initMonitorState failedCycle).errorReported = true) ∧
    (initMonitorState.errorReported = true →
      (monitorStep initMonitorState failedCycle).printed = initMonitorState.printed) :=
  c1_failed_state_behavior initMonitorState failedCycle failedStatusRow
    (by decide) rfl rfl

/-! ## Claim C2 -/

/-- C2 counterexample: after a sample deriving 50 percent, a later sample
deriving 25 percent moves the stored tqdm counter backward to 25 — the
displayed percentage is not non-decreasing. -/
theorem c2_counterexample :
    (monitorRun initMonitorState [halfCycle]).pbarN = 50 ∧
    (monitorRun initMonitorState [halfCycle, quarterCycle]).pbarN = 25 ∧
    (monitorRun initMonitorState [halfCycle, quarterCycle]).pbarN <
      (monitorRun initMonitorState [halfCycle]).pbarN := by
  refine ⟨by decide, by decide, by decide⟩

/-- C2 (amended): whenever progress rows are present with positive total
estimated work and the status row does not report 'Completed', the loop body
assigns the freshly derived percentage to the bar outright
(`pbar.update(progress_percent - pbar.n)`), irrespective of the previous
value — there is no monotonic clamping, so the display can move backward. -/
theorem c2_progress_overwritten (s : MonitorState) (c : PollCycle)
    (hne : c.progressData ≠ [])
    (hpos : 0 < totalWork c.progressData)
    (hnc : ∀ st, c.status = some st → st.state ≠ "Completed") :
    (monitorStep s c).pbarN =
      min (completedWork c.progressData * 100 / totalWork c.progressData) 100 := by
  have hemp : c.progressData.isEmpty = false := by
    simp [List.isEmpty_iff, hne]
  rcases hst : c.status with _ | st
  · simp [monitorStep, hemp, hst, hpos]
  · have hc : st.state ≠ "Completed" := hnc st hst
    by_cases hfail : st.state = "Failed" <;>
      by_cases hrep : s.errorReported = true <;>
        simp [monitorStep, hemp, hst, hpos, hc, hfail, hrep]

/-- Witness for C2 (amended): from a state already showing 50 percent, the
25-percent sample overwrites the bar. -/
theorem c2_progress_overwritten_witness :
    (monitorStep { pbarN := 50, completed := false, errorReported := false, printed := [] }
        quarterCycle).pbarN =
      min (completedWork quarterCycle.progressData * 100 /
             totalWork quarterCycle.progressData) 100 :=
  c2_progress_overwritten
    { pbarN := 50, completed := false, errorReported := false, printed := [] }
    quarterCycle (by decide) (by decide)
    (fun st hst => by
      have h2 : (⟨"In Progress", 0, ""⟩ : StatusRow) = st :=
        Option.some.inj (show some (⟨"In Progress", 0, ""⟩ : StatusRow) = some st from hst)
      rw [← h2]
      decide)

/-! ## Claim C3 -/

/-- C3 counterexample: when the SSH connection to the target fails,
`execute_clone` never issues the clone directive (`cloneIssued = false`)
and returns False, and the whole run exits 1 — the failure aborts the
clone instead of merely degrading visibility. -/
theorem c3_counterexample :
    execute_clone sshFailEnv =
      .ok { donorSet := true, cloneIssued := false, monitorInvoked := false
            monResult := none, retval := false } ∧
    mainRun { pre := healthyPreEnv, exec := sshFailEnv, val := okValidateEnv } = 1 :=
  ⟨rfl, rfl⟩

/-- C3 (amended): launching the remote watcher is a hard prerequisite, not
best-effort: whenever `ssh_connect` to the target returns False (and the
earlier datadir/donor statements succeeded), `execute_clone` returns False
without issuing the clone directive or invoking the monitor. -/
theorem c3_ssh_failure_aborts (env : ExecEnv)
    (h1 : env.datadirErr = none) (h2 : env.donorErr = none)
    (h3 : env.sshOk = false) :
    execute_clone env =
      .ok { donorSet := true, cloneIssued := false, monitorInvoked := false
            monResult := none, retval := false } := by
  simp [execute_clone, h1, h2, h3]

/-- Witness for C3 (amended) at a concrete environment. -/
theorem c3_ssh_failure_aborts_witness :
    execute_clone sshFailEnv =
      .ok { donorSet := true, cloneIssued := false, monitorInvoked := false
            monResult := none, retval := false } :=
  c3_ssh_failure_aborts sshFailEnv rfl rfl rfl

/-! ## Claim C4 -/

/-- C4 counterexample: with the expected lost-connection disconnect on
dispatch and every reconnection attempt failing, the monitor prints the
could-not-reconnect diagnostic and gives up, yet `execute_clone` still
returns True and `main` exits 0 — attempt-budget exhaustion is treated as a
successful dispatch, not as a Failed session. -/
theorem c4_counterexample :
    execute_clone reconnectFailExecEnv =
      .ok { donorSet := true, cloneIssued := true, monitorInvoked := true
            monResult := some { reconnected := false, reconnectFailPrinted := true
                                final := initMonitorState }
            retval := true } ∧
    mainRun reconnectFailMainEnv = 0 :=
  ⟨rfl, rfl⟩

/-- C4 (amended): when the dispatch disconnect is absorbed and the
reconnect budget of `max_retries = 30` is exhausted without a connection,
`_monitor_clone_progress` prints the could-not-reconnect diagnostic and
returns early; `execute_clone` nevertheless returns True and the process
exit code is 0 (validation runs, but its result is ignored). -/
theorem c4_reconnect_exhaustion_not_failed (env : MainEnv) (e : DbError)
    (h1 : (mainPreflight env.pre).proceed = true)
    (h2 : env.exec.datadirErr = none) (h3 : env.exec.donorErr = none)
    (h4 : env.exec.sshOk = true) (h5 : env.exec.dispatchErr = some e)
    (h6 : isLostConnErr e = true)
    (h7 : reconnectOk env.exec.mon.reconnectAttempts maxRetries = false) :
    execute_clone env.exec =
      .ok { donorSet := true, cloneIssued := true, monitorInvoked := true
            monResult := some { reconnected := false, reconnectFailPrinted := true
                                final := initMonitorState }
            retval := true } ∧
    mainRun env = 0 := by
  have hex : execute_clone env.exec =
      .ok { donorSet := true, cloneIssued := true, monitorInvoked := true
            monResult := some { reconnected := false, reconnectFailPrinted := true
                                final := initMonitorState }
            retval := true } := by
    simp [execute_clone, h2, h3, h4, h5, h6, monitor_clone_progress, h7]
  exact ⟨hex, by simp [mainRun, h1, hex]⟩

/-- Witness for C4 (amended) at a concrete whole-run environment. -/
theorem c4_reconnect_exhaustion_not_failed_witness :
    execute_clone reconnectFailMainEnv.exec =
      .ok { donorSet := true, cloneIssued := true, monitorInvoked := true
            monResult := some { reconnected := false, reconnectFailPrinted := true
                                final := initMonitorState }
            retval := true } ∧
    mainRun reconnectFailMainEnv = 0 :=
  c4_reconnect_exhaustion_not_failed reconnectFailMainEnv
    (DbError.operational lostConnMsg) rfl rfl rfl rfl rfl (by decide) (by decide)

/-! ## Claim C5 -/

/-- C5: classification of an error raised by `cursor.execute(clone_stmt)`:
an `OperationalError` whose message contains "Lost connection" is absorbed
and the reconnect/monitor phase runs with a True return; any other error —
operational without the substring, other MySQL error, or a non-MySQL
exception — is fatal (False return or propagated exception) and the monitor
is never invoked. -/
theorem c5_dispatch_error_classification (env : ExecEnv) (e : DbError)
    (h1 : env.datadirErr = none) (h2 : env.donorErr = none)
    (h3 : env.sshOk = true) (h4 : env.dispatchErr = some e) :
    (isLostConnErr e = true →
       execMonitorInvoked (execute_clone env) = true ∧
       execFatal (execute_clone env) = false) ∧
    (isLostConnErr e = false →
       execMonitorInvoked (execute_clone env) = false ∧
       execFatal (execute_clone env) = true) := by
  constructor
  · intro hl
    simp [execute_clone, h1, h2, h3, h4, hl, execMonitorInvoked, execFatal]
  · intro hl
    rcases e with msg | msg | msg <;>
      simp only [isLostConnErr] at hl <;>
      simp [execute_clone, h1, h2, h3, h4, hl, isLostConnErr, caughtByOuter,
            execMonitorInvoked, execFatal]

/-- Witness for C5 at the expected lost-connection dispatch error. -/
theorem c5_dispatch_error_classification_witness :
    execMonitorInvoked (execute_clone lostConnEnv) = true ∧
    execFatal (execute_clone lostConnEnv) = false :=
  (c5_dispatch_error_classification lostConnEnv (DbError.operational lostConnMsg)
    rfl rfl rfl rfl).1 (by decide)

/-! ## Claim C6 -/

/-- C6 counterexample: with every pre-flight condition violated at once,
only the source-connect check runs and only its reason is reported; the
target-connect, capability and session checks are never evaluated — the
sequence short-circuits on the first failure. -/
theorem c6_counterexample :
    mainPreflight multiFailPreEnv =
      { checksRun := [Check.srcConnect]
        abortReason := some "Cannot connect to source database"
        proceed := false } ∧
    Check.tgtConnect ∉ (mainPreflight multiFailPreEnv).checksRun ∧
    Check.srcPlugin ∉ (mainPreflight multiFailPreEnv).checksRun ∧
    Check.activeSessions ∉ (mainPreflight multiFailPreEnv).checksRun := by
  refine ⟨by decide, by decide, by decide, by decide⟩

/-- C6 (amended): the pre-flight checks run in a fixed order and the first
failing check aborts immediately with its own reason; later checks are not
evaluated, so at most one failure reason reaches the operator. -/
theorem c6_preflight_short_circuits (env : PreflightEnv) :
    (env.sourceConnectOk = false →
       mainPreflight env =
         { checksRun := [Check.srcConnect]
           abortReason := some "Cannot connect to source database"
           proceed := false }) ∧
    (env.sourceConnectOk = true → env.targetConnectOk = false →
       mainPreflight env =
         { checksRun := [Check.srcConnect, Check.tgtConnect]
           abortReason := some "Cannot connect to target database"
           proceed := false }) ∧
    (env.sourceConnectOk = true → env.targetConnectOk = true →
     check_plugin_status env.sourcePluginRow = false →
       mainPreflight env =
         { checksRun := [Check.srcConnect, Check.tgtConnect, Check.srcPlugin]
           abortReason := some "Clone plugin issue on source database"
           proceed := false }) ∧
    (env.sourceConnectOk = true → env.targetConnectOk = true →
     check_plugin_status env.sourcePluginRow = true →
     check_plugin_status env.targetPluginRow = false →
       mainPreflight env =
         { checksRun := [Check.srcConnect, Check.tgtConnect, Check.srcPlugin,
                         Check.tgtPlugin]
           abortReason := some "Clone plugin issue on target database"
           proceed := false }) := by
  refine ⟨?_, ?_, ?_, ?_⟩ <;> intros <;> simp [mainPreflight, *]

/-- Witness for C6 (amended) at the all-failing environment. -/
theorem c6_preflight_short_circuits_witness :
    mainPreflight multiFailPreEnv =
      { checksRun := [Check.srcConnect]
        abortReason := some "Cannot connect to source database"
        proceed := false } :=
  (c6_preflight_short_circuits multiFailPreEnv).1 rfl

/-! ## Claim C7 -/

/-- C7: with `--force` set and both connects and both capability checks
passing, dispatch proceeds no matter what the active-session check finds;
and a capability failure on either endpoint prevents dispatch with or
without `--force`. -/
theorem c7_force_scope (env : PreflightEnv) :
    (env.force = true → env.sourceConnectOk = true → env.targetConnectOk = true →
     check_plugin_status env.sourcePluginRow = true →
     check_plugin_status env.targetPluginRow = true →
       (mainPreflight env).proceed = true) ∧
    (check_plugin_status env.sourcePluginRow = false ∨
       check_plugin_status env.targetPluginRow = false →
       (mainPreflight env).proceed = false) := by
  constructor
  · intro hf h1 h2 h3 h4
    simp [mainPreflight, h1, h2, h3, h4, hf]
  · intro hcap
    by_cases h1 : env.sourceConnectOk = true
    · by_cases h2 : env.targetConnectOk = true
      · rcases hcap with hc | hc
        · simp [mainPreflight, h1, h2, hc]
        · by_cases h3 : check_plugin_status env.sourcePluginRow = true
          · simp [mainPreflight, h1, h2, h3, hc]
          · simp only [Bool.not_eq_true] at h3
            simp [mainPreflight, h1, h2, h3]
      · simp only [Bool.not_eq_true] at h2
        simp [mainPreflight, h1, h2]
    · simp only [Bool.not_eq_true] at h1
      simp [mainPreflight, h1]

/-- Witness for C7: `--force` with a blocking session on the target and
healthy capability checks still proceeds to dispatch. -/
theorem c7_force_scope_witness :
    (mainPreflight busyForcedPreEnv).proceed = true :=
  (c7_force_scope busyForcedPreEnv).1 rfl rfl rfl (by decide) (by decide)

/-! ## Claim C8 -/

/-- C8: on a cycle with no progress rows, the monitor consults the
terminal-status surface at once: a row with error code 0 ends the loop as
completed with the bar forced to 100; any other outcome (no row, or a
nonzero error code) leaves `completed` unchanged — polling continues — and
prints the no-progress diagnostic exactly when it has not been printed
before; across any whole run that diagnostic appears at most once. -/
theorem c8_empty_rows_resolution (s : MonitorState) (c : PollCycle)
    (cycles : List PollCycle) (hemp : c.progressData = []) :
    (∀ st, c.status = some st → st.errorNo = 0 →
       (monitorStep s c).completed = true ∧ (monitorStep s c).pbarN = 100) ∧
    ((∀ st, c.status = some st → st.errorNo ≠ 0) →
       (monitorStep s c).completed = s.completed ∧
       (s.errorReported = false →
          (monitorStep s c).printed = s.printed ++ [FailMsg.noProgress] ∧
          (monitorStep s c).errorReported = true)) ∧
    ((monitorRun initMonitorState cycles).printed.countP
        (fun m => decide (m = FailMsg.noProgress)) ≤ 1) := by
  have hemp2 : c.progressData.isEmpty = true := by simp [hemp]
  refine ⟨?_, ?_, ?_⟩
  · intro st hst h0
    simp [monitorStep, hemp2, hst, h0]
  · intro hne
    rcases hst : c.status with _ | st
    · by_cases hrep : s.errorReported = true <;>
        simp [monitorStep, hemp2, hst, hrep]
    · have h0 : st.errorNo ≠ 0 := hne st hst
      by_cases hrep : s.errorReported = true <;>
        simp [monitorStep, hemp2, hst, h0, hrep]
  · exact le_trans (List.countP_le_length _) (printed_length_le_one cycles)

/-- Witness for C8 at a concrete ambiguous-then-completed read. -/
theorem c8_empty_rows_resolution_witness :
    (monitorStep initMonitorState emptyOkCycle).completed = true ∧
    (monitorStep initMonitorState emptyOkCycle).pbarN = 100 :=
  (c8_empty_rows_resolution initMonitorState emptyOkCycle [emptyBadCycle] rfl).1
    ⟨"Completed", 0, ""⟩ rfl rfl

/-! ## Claim C9 -/

/-- C9: `validate_clone` (given the fresh connection succeeds) returns True
exactly when the status row is present with STATE 'Completed' and error
code 0, in which case the target's version and server id are reported; any
other row yields a failure carrying the row's error message, and an absent
row yields a failure carrying "Unknown error". -/
theorem c9_validation_iff (env : ValidateEnv) (h : env.connectOk = true) :
    ((validate_clone env).ok = true ↔
       ∃ st, env.status = some st ∧ st.state = "Completed" ∧ st.errorNo = 0) ∧
    (∀ st, env.status = some st → st.state = "Completed" → st.errorNo = 0 →
       validate_clone env =
         { ok := true, failMessage := none
           serverInfoReported := some (env.version, env.serverId) }) ∧
    (∀ st, env.status = some st → ¬(st.state = "Completed" ∧ st.errorNo = 0) →
       validate_clone env =
         { ok := false, failMessage := some st.errorMessage
           serverInfoReported := none }) ∧
    (env.status = none →
       validate_clone env =
         { ok := false, failMessage := some "Unknown error"
           serverInfoReported := none }) := by
  refine ⟨?_, ?_, ?_, ?_⟩
  · rcases hst : env.status with _ | st
    · simp [validate_clone, h, hst]
    · by_cases hc : st.state = "Completed" ∧ st.errorNo = 0
      · simp [validate_clone, h, hst, hc.1, hc.2]
      · rcases Decidable.not_and_iff_or_not.mp hc with hc1 | hc1 <;>
          constructor <;> intro hx <;>
            simp_all [validate_clone, h, hst]
  · intro st hst h1 h2
    simp [validate_clone, h, hst, h1, h2]
  · intro st hst hc
    rcases Decidable.not_and_iff_or_not.mp hc with hc1 | hc1 <;>
      by_cases hs : st.state = "Completed" <;>
        simp_all [validate_clone, h, hst]
  · intro hst
    simp [validate_clone, h, hst]

/-- Witness for C9 at the healthy validation environment. -/
theorem c9_validation_iff_witness :
    validate_clone okValidateEnv =
      { ok := true, failMessage := none
        serverInfoReported := some (okValidateEnv.version, okValidateEnv.serverId) } :=
  (c9_validation_iff okValidateEnv rfl).2.1 ⟨"Completed", 0, ""⟩ rfl rfl rfl

/-! ## Claim C10 -/

/-- C10: the shared `error_reported` flag makes failure reporting global to
the monitoring phase: any finite run from the initial state prints at most
one failure diagnostic in total, and once the ambiguous no-progress
diagnostic is in the output, no Failed-status error message can also be in
it (and vice versa). -/
theorem c10_single_failure_report (cycles : List PollCycle) :
    (monitorRun initMonitorState cycles).printed.length ≤ 1 ∧
    (∀ m, FailMsg.noProgress ∈ (monitorRun initMonitorState cycles).printed →
       FailMsg.cloneFailed m ∉ (monitorRun initMonitorState cycles).printed) := by
  refine ⟨printed_length_le_one cycles, ?_⟩
  intro m hmem
  exact not_mem_of_length_le_one (printed_length_le_one cycles) hmem (by simp)

/-- Witness for C10: after an ambiguous cycle fires the no-progress
diagnostic, a Failed-status message is indeed absent from the output. -/
theorem c10_single_failure_report_witness :
    FailMsg.cloneFailed "boom" ∉
      (monitorRun initMonitorState [emptyBadCycle]).printed :=
  (c10_single_failure_report [emptyBadCycle]).2 "boom" (by decide)

end CloneTool

